import Mathlib

/-!
# Verification of the covid-19-data reporting pipeline

Shallow embedding of the data-transformation pipeline shared by
`covid-19-states.py` and `covid-19-counties.py`: CSV rows are lists of
structures, pandas column operations become list operations, floating
point `NaN` (produced by `diff`/`rolling` edges) is modelled by `Option ℚ`
(`none` = NaN), and float arithmetic is modelled by exact rationals.
Definitions follow the Python source statement by statement.
-/

/-- Pandas `Series.diff().fillna(0).astype(int)` applied to an integer
column: first element of the whole column becomes `0` (the filled NaN),
every later element is the difference with its predecessor.  Note the
source applies this to the WHOLE sorted frame, not per group. -/
def pyDiff : List Int → List Int
  | [] => []
  | x :: xs => 0 :: pyDiffAux x xs
where
  pyDiffAux : Int → List Int → List Int
  | _, [] => []
  | prev, x :: xs => (x - prev) :: pyDiffAux x xs

/-- Pandas `Series.rolling(window=7).sum().divide(7.0)` on an integer
column: position `i` (0-based) holds the mean of entries `i-6 .. i` when
`i ≥ 6`, and NaN (`none`) before that.  Applied to the whole column, as in
the source. -/
def rollingMean7 (xs : List Int) : List (Option ℚ) :=
  (List.range xs.length).map fun i =>
    if 6 ≤ i then some ((((xs.take (i + 1)).drop (i - 6)).map (fun z => (z : ℚ))).sum / 7)
    else none

/-- Comparison used by pandas `sort_values(column, ascending=False)` on a
possibly-NaN column: `geNaNLast x y` says `x` may come (weakly) before `y`
in the descending order; NaN (`none`) sorts last (`na_position='last'`). -/
def geNaNLast : Option ℚ → Option ℚ → Bool
  | some v, some w => decide (w ≤ v)
  | some _, none => true
  | none, some _ => false
  | none, none => true

/-- Pandas `df.sort_values(column, ascending=False)` with `val` extracting
the column: sort descending, NaNs last.  (The source's quicksort is
unstable; on distinct keys any sort agrees with this one.) -/
def sortValuesDesc (val : α → Option ℚ) (l : List α) : List α :=
  List.insertionSort (fun a b => geNaNLast (val a) (val b) = true) l

/-- Pandas `df.drop_duplicates(col)` with `key` extracting the column:
keep the first row for each key value. -/
def dedupBy (key : α → String) : List α → List α
  | [] => []
  | x :: xs => x :: dedupBy key (xs.filter fun y => key y ≠ key x)
termination_by l => l.length
decreasing_by
  exact Nat.lt_succ_of_le (xs.length_filter_le _)

/-- Python list slicing `l[:n]` for an `int` bound `n`: a nonnegative `n`
takes the first `n` elements, a negative `n` drops the last `|n|`. -/
def pyTake (n : Int) (l : List α) : List α :=
  if 0 ≤ n then l.take n.toNat else l.take (l.length - (-n).toNat)

/-- Python `str.strip()` (ASCII whitespace). -/
def pyStrip (s : String) : String :=
  ⟨(((s.toList.dropWhile Char.isWhitespace).reverse.dropWhile Char.isWhitespace).reverse)⟩

/-- Digit run of a Python integer literal: one or more ASCII digits, with
single underscores allowed between digits. -/
def parseDigits : List Char → Option Nat
  | [] => none
  | c :: cs =>
    if c.isDigit then parseDigitsAux (c.toNat - 48) cs else none
where
  parseDigitsAux : Nat → List Char → Option Nat
  | acc, [] => some acc
  | acc, c :: cs =>
    if c.isDigit then parseDigitsAux (acc * 10 + (c.toNat - 48)) cs
    else if c = '_' then
      match cs with
      | c2 :: cs2 =>
        if c2.isDigit then parseDigitsAux (acc * 10 + (c2.toNat - 48)) cs2 else none
      | [] => none
    else none

/-- Python `int(s)` (modelled over ASCII): strip whitespace, optional
sign, digit run; `none` when `int` would raise `ValueError`. -/
def parsePyInt (s : String) : Option Int :=
  let cs := (s.toList.dropWhile Char.isWhitespace).reverse.dropWhile Char.isWhitespace
    |>.reverse
  match cs with
  | '+' :: rest => (parseDigits rest).map fun n => (n : Int)
  | '-' :: rest => (parseDigits rest).map fun n => -(n : Int)
  | rest => (parseDigits rest).map fun n => (n : Int)

/-- Splitting a character list at commas, with Python `str.split(',')`
semantics (an empty string yields one empty token, separators at the ends
yield empty tokens). -/
def splitComma : List Char → List (List Char)
  | [] => [[]]
  | c :: cs =>
    if c = ',' then [] :: splitComma cs
    else
      match splitComma cs with
      | t :: ts => (c :: t) :: ts
      | [] => [[c]]

/-- The explicit-list branch of the selectors:
`[tok.strip() for tok in s.split(',')]`. -/
def splitStrip (s : String) : List String :=
  (splitComma s.toList).map fun cs => pyStrip ⟨cs⟩

/-- Lexicographic comparison of character lists by code point — the order
Python (and hence pandas) uses on `str` columns. -/
def charListLt : List Char → List Char → Bool
  | _, [] => false
  | [], _ :: _ => true
  | a :: as, b :: bs =>
    a.toNat < b.toNat || (a.toNat = b.toNat && charListLt as bs)

/-- Python `<` on strings. -/
def strLtB (a b : String) : Bool := charListLt a.toList b.toList

/-! ## States script (`covid-19-states.py`) -/

/-- One row of `us-states.csv` after `read_csv`: `date,state,fips,cases,deaths`.
Dates are modelled as ordinal day numbers (the `pd.to_datetime` column
`Date` preserves the calendar order of `date`). -/
structure Obs where
  date : Nat
  state : String
  fips : Int
  cases : Int
  deaths : Int
  deriving DecidableEq, Repr

/-- A row after the Deriver (`total`/`daily` columns added, the frame
sorted by `['State','Date']`); the daily columns are still the raw integer
first differences. -/
structure DRow where
  State : String
  Date : Nat
  totalCases : Int
  totalDeaths : Int
  dailyCases : Int
  dailyDeaths : Int
  deriving DecidableEq, Repr

/-- A row after the 7-day rolling average replaced the daily columns:
those are now NaN-able rationals. -/
structure SRow where
  State : String
  Date : Nat
  totalCases : Int
  totalDeaths : Int
  dailyCases : Option ℚ
  dailyDeaths : Option ℚ
  deriving DecidableEq, Repr

/-- A row after `pd.merge(df, pops, on='State')`: a `population` column is
attached; the four metric columns are rationals so that normalization can
rescale them in place. -/
structure MRow where
  State : String
  Date : Nat
  totalCases : ℚ
  totalDeaths : ℚ
  dailyCases : Option ℚ
  dailyDeaths : Option ℚ
  population : ℚ
  deriving DecidableEq, Repr

/-- One row of the population reference table produced by
`get_populations()` in the states script: `['State', 'population']`. -/
structure Pop where
  State : String
  population : ℚ
  deriving DecidableEq, Repr

/-- `df.sort_values(by=['State','Date'])`. -/
def sortObs (l : List Obs) : List Obs :=
  List.insertionSort
    (fun a b => (strLtB a.state b.state = true ∨ (a.state = b.state ∧ a.date ≤ b.date)))
    l

/-- The Deriver of the states script: copy the cumulative columns, sort by
`['State','Date']`, then `df.deaths.diff().fillna(0).astype(int)` and the
same for cases — the `diff` runs over the whole sorted frame. -/
def derive_states (obs : List Obs) : List DRow :=
  let s := sortObs obs
  zipDRows s (pyDiff (s.map (·.cases))) (pyDiff (s.map (·.deaths)))
where
  zipDRows : List Obs → List Int → List Int → List DRow
  | o :: os, dc :: dcs, dd :: dds =>
    { State := o.state, Date := o.date, totalCases := o.cases,
      totalDeaths := o.deaths, dailyCases := dc, dailyDeaths := dd }
      :: zipDRows os dcs dds
  | _, _, _ => []

/-- `df['daily cases'] = df['daily cases'].rolling(window=7).sum().divide(7.0)`
and the same for deaths — again over the whole frame. -/
def rollStep (rows : List DRow) : List SRow :=
  zipSRows rows (rollingMean7 (rows.map (·.dailyCases)))
    (rollingMean7 (rows.map (·.dailyDeaths)))
where
  zipSRows : List DRow → List (Option ℚ) → List (Option ℚ) → List SRow
  | r :: rs, dc :: dcs, dd :: dds =>
    { State := r.State, Date := r.Date, totalCases := r.totalCases,
      totalDeaths := r.totalDeaths, dailyCases := dc, dailyDeaths := dd }
      :: zipSRows rs dcs dds
  | _, _, _ => []

/-- `pd.merge(df, pops, on='State')`: inner join, left-frame order, each
left row paired with every matching population row. -/
def mergePop (rows : List SRow) (pops : List Pop) : List MRow :=
  rows.flatMap fun r =>
    (pops.filter fun p => p.State = r.State).map fun p =>
      { State := r.State, Date := r.Date, totalCases := (r.totalCases : ℚ),
        totalDeaths := (r.totalDeaths : ℚ), dailyCases := r.dailyCases,
        dailyDeaths := r.dailyDeaths, population := p.population }

/-- The Normalizer: for each of the four metric columns,
`df[[col]] = df[[col]].div(df.population, axis=0)` then `.mul(100.0)`.
NaN entries stay NaN. -/
def normalizeCols (rows : List MRow) : List MRow :=
  rows.map fun r =>
    { r with
      totalCases := r.totalCases / r.population * 100
      totalDeaths := r.totalDeaths / r.population * 100
      dailyCases := r.dailyCases.map fun v => v / r.population * 100
      dailyDeaths := r.dailyDeaths.map fun v => v / r.population * 100 }

/-- The pipeline of `test(opts)` in the states script up to (and
including) the optional normalization: derive, roll, merge populations,
then normalize when `--norm` is set. -/
def states_pipeline (norm : Bool) (obs : List Obs) (pops : List Pop) : List MRow :=
  let m := mergePop (rollStep (derive_states obs)) pops
  if norm then normalizeCols m else m

/-- The metric chosen by `--multi` in `choose_column`: `c`/`d`/`C`/`D`,
anything else defaults to `'total cases'`. -/
inductive Col
  | dailyCases
  | dailyDeaths
  | totalCases
  | totalDeaths
  deriving DecidableEq, Repr

/-- `choose_column(opts)`. -/
def choose_column (multi : Option String) : Col :=
  match multi with
  | some "c" => Col.dailyCases
  | some "d" => Col.dailyDeaths
  | some "C" => Col.totalCases
  | some "D" => Col.totalDeaths
  | _ => Col.totalCases

/-- Reading the chosen column out of a merged row (totals are never NaN). -/
def getCol (c : Col) (r : MRow) : Option ℚ :=
  match c with
  | Col.dailyCases => r.dailyCases
  | Col.dailyDeaths => r.dailyDeaths
  | Col.totalCases => some r.totalCases
  | Col.totalDeaths => some r.totalDeaths

/-- `get_state_list(opts, df, column)`: try `int(opts['--states'])`; a
nonzero parse selects the top rows of
`df.sort_values(column, ascending=False).drop_duplicates('State')`
(sliced by `[:top_number]`); otherwise split the option on commas and
strip each token. -/
def get_state_list (optStates : String) (df : List MRow) (col : Col) : List String :=
  match parsePyInt optStates with
  | some n =>
    if n ≠ 0 then
      pyTake n ((dedupBy (·.State) (sortValuesDesc (getCol col) df)).map (·.State))
    else splitStrip optStates
  | none => splitStrip optStates

/-- The region selection exactly as `test(opts)` performs it: on the
merged (and optionally normalized) frame, with the `--multi` metric. -/
def states_select (optStates : String) (multi : Option String) (norm : Bool)
    (obs : List Obs) (pops : List Pop) : List String :=
  get_state_list optStates (states_pipeline norm obs pops) (choose_column multi)

/-- The noise filter run just before presenting:
`df[df['daily cases'] >= 0]` when normalized, `df[df['daily cases'] >= 2]`
otherwise; a NaN compares `False` either way. -/
def geNoise (x : Option ℚ) (c : ℚ) : Bool :=
  match x with
  | some v => decide (c ≤ v)
  | none => false

/-- The frame handed to the Presenter (plot / print), after the noise
filter. -/
def noiseFilter (norm : Bool) (rows : List MRow) : List MRow :=
  if norm then rows.filter fun r => geNoise r.dailyCases 0
  else rows.filter fun r => geNoise r.dailyCases 2

/-- Full states pipeline output as presented. -/
def states_presented (norm : Bool) (obs : List Obs) (pops : List Pop) : List MRow :=
  noiseFilter norm (states_pipeline norm obs pops)

/-! ## Counties script (`covid-19-counties.py`) -/

/-- One row of `us-counties.csv`: `date,county,state,fips,cases,deaths`;
the `fips` code can be missing (NaN) in the raw data. -/
structure CObs where
  date : Nat
  county : String
  state : String
  fips : Option Int
  cases : Int
  deaths : Int
  deriving DecidableEq, Repr

/-- A counties row after the Deriver (sorted by `['state','county','Date']`,
daily columns as raw integer differences, `fips` filled with 0). -/
structure CDRow where
  state : String
  County : String
  Date : Nat
  totalCases : Int
  totalDeaths : Int
  dailyCases : Int
  dailyDeaths : Int
  fips : Int
  deriving DecidableEq, Repr

/-- A counties row after the 7-day rolling average. -/
structure CSRow where
  state : String
  County : String
  Date : Nat
  totalCases : Int
  totalDeaths : Int
  dailyCases : Option ℚ
  dailyDeaths : Option ℚ
  fips : Int
  deriving DecidableEq, Repr

/-- A counties row after `pd.merge(df, pops, on='fips')`. -/
structure CMRow where
  state : String
  County : String
  Date : Nat
  totalCases : ℚ
  totalDeaths : ℚ
  dailyCases : Option ℚ
  dailyDeaths : Option ℚ
  fips : Int
  population : ℚ
  deriving DecidableEq, Repr

/-- One row of the table produced by `get_populations()` in the counties
script: `['fips', 'population']`. -/
structure CPop where
  fips : Int
  population : ℚ
  deriving DecidableEq, Repr

/-- `df.sort_values(by=['state','county','Date'])`. -/
def sortCObs (l : List CObs) : List CObs :=
  List.insertionSort
    (fun a b => (strLtB a.state b.state = true ∨ (a.state = b.state ∧
      (strLtB a.county b.county = true ∨ (a.county = b.county ∧ a.date ≤ b.date)))))
    l

/-- The Deriver of the counties script: sort by (parent state, county,
date), then whole-frame `diff().fillna(0).astype(int)` for the daily
columns, and `df.fips.fillna(0).astype(int)`. -/
def derive_counties (obs : List CObs) : List CDRow :=
  let s := sortCObs obs
  zipCDRows s (pyDiff (s.map (·.cases))) (pyDiff (s.map (·.deaths)))
where
  zipCDRows : List CObs → List Int → List Int → List CDRow
  | o :: os, dc :: dcs, dd :: dds =>
    { state := o.state, County := o.county, Date := o.date,
      totalCases := o.cases, totalDeaths := o.deaths, dailyCases := dc,
      dailyDeaths := dd, fips := o.fips.getD 0 } :: zipCDRows os dcs dds
  | _, _, _ => []

/-- The counties rolling step, over the whole frame. -/
def rollStepC (rows : List CDRow) : List CSRow :=
  zipCSRows rows (rollingMean7 (rows.map (·.dailyCases)))
    (rollingMean7 (rows.map (·.dailyDeaths)))
where
  zipCSRows : List CDRow → List (Option ℚ) → List (Option ℚ) → List CSRow
  | r :: rs, dc :: dcs, dd :: dds =>
    { state := r.state, County := r.County, Date := r.Date,
      totalCases := r.totalCases, totalDeaths := r.totalDeaths,
      dailyCases := dc, dailyDeaths := dd, fips := r.fips }
      :: zipCSRows rs dcs dds
  | _, _, _ => []

/-- `pd.merge(df, pops, on='fips')`: inner join on the fips code. -/
def mergePopC (rows : List CSRow) (pops : List CPop) : List CMRow :=
  rows.flatMap fun r =>
    (pops.filter fun p => p.fips = r.fips).map fun p =>
      { state := r.state, County := r.County, Date := r.Date,
        totalCases := (r.totalCases : ℚ), totalDeaths := (r.totalDeaths : ℚ),
        dailyCases := r.dailyCases, dailyDeaths := r.dailyDeaths,
        fips := r.fips, population := p.population }

/-- The counties Normalizer (same four columns). -/
def normalizeColsC (rows : List CMRow) : List CMRow :=
  rows.map fun r =>
    { r with
      totalCases := r.totalCases / r.population * 100
      totalDeaths := r.totalDeaths / r.population * 100
      dailyCases := r.dailyCases.map fun v => v / r.population * 100
      dailyDeaths := r.dailyDeaths.map fun v => v / r.population * 100 }

/-- The pipeline of `test(opts)` in the counties script up to the
optional normalization: derive, roll, keep only the `--state` rows, merge
populations on fips, then normalize when `--norm` is set. -/
def counties_pipeline (norm : Bool) (theState : String) (obs : List CObs)
    (pops : List CPop) : List CMRow :=
  let s := (rollStepC (derive_counties obs)).filter fun r => r.state = theState
  let m := mergePopC s pops
  if norm then normalizeColsC m else m

/-- Reading the chosen column out of a merged counties row. -/
def getColC (c : Col) (r : CMRow) : Option ℚ :=
  match c with
  | Col.dailyCases => r.dailyCases
  | Col.dailyDeaths => r.dailyDeaths
  | Col.totalCases => some r.totalCases
  | Col.totalDeaths => some r.totalDeaths

/-- `get_county_list(opts, df, column)`: same selector as the states
script, keyed on the `County` column. -/
def get_county_list (optCounties : String) (df : List CMRow) (col : Col) : List String :=
  match parsePyInt optCounties with
  | some n =>
    if n ≠ 0 then
      pyTake n ((dedupBy (·.County) (sortValuesDesc (getColC col) df)).map (·.County))
    else splitStrip optCounties
  | none => splitStrip optCounties

/-- The counties noise filter before presenting. -/
def noiseFilterC (norm : Bool) (rows : List CMRow) : List CMRow :=
  if norm then rows.filter fun r => geNoise r.dailyCases 0
  else rows.filter fun r => geNoise r.dailyCases 2

/-- Full counties pipeline output as presented. -/
def counties_presented (norm : Bool) (theState : String) (obs : List CObs)
    (pops : List CPop) : List CMRow :=
  noiseFilterC norm (counties_pipeline norm theState obs pops)

/-! ## Specification-side definitions

These follow the spec's words (not the source); the theorems compare the
source-derived functions against them. -/

/-- The latest value of column `val` for region `k` in table `l`: the
value on the region's last row.  Pipeline tables are sorted by (region,
date), so within a region the last row is the one with the latest date. -/
def latestValue (val : α → Option ℚ) (key : α → String) (l : List α)
    (k : String) : Option ℚ :=
  match (l.filter fun x => key x = k).getLast? with
  | some x => val x
  | none => none

/-- A value strictly below the noise threshold `c`; a NaN (`none`) value
is not below any threshold. -/
def isBelow (x : Option ℚ) (c : ℚ) : Bool :=
  match x with
  | some v => decide (v < c)
  | none => false

/-- What a top-`m` selection over table `df` must return, per the spec
(amended from "latest value" to "maximum value"): `res` lists pairwise
distinct region identifiers drawn from `df`, `min m (number of regions)`
of them, and there are representative rows `xs`, one per selected region
in order, such that each representative carries the greatest metric value
of its region (so regions are ranked by their maximum), `xs` is ordered
descending in the metric, and every selected region's maximum dominates
every row of every unselected region.  NaN values sort below all numbers
(`geNaNLast`). -/
def TopSelectSpec (val : α → Option ℚ) (key : α → String) (df : List α)
    (m : Nat) (res : List String) : Prop :=
  res.Nodup ∧
  res.length = min m (df.map key).dedup.length ∧
  (∀ k ∈ res, k ∈ df.map key) ∧
  ∃ xs : List α, res = xs.map key ∧ (∀ x ∈ xs, x ∈ df) ∧
    xs.Pairwise (fun a b => geNaNLast (val a) (val b) = true) ∧
    (∀ x ∈ xs, ∀ y ∈ df, key y = key x → geNaNLast (val x) (val y) = true) ∧
    (∀ x ∈ xs, ∀ y ∈ df, key y ∉ res → geNaNLast (val x) (val y) = true)

/-- The Population Joiner as the spec describes it: each row whose
identifier finds a population match is kept, extended with that
population; rows with no match are dropped. -/
def innerJoinSpec (rows : List SRow) (pops : List Pop) : List MRow :=
  rows.filterMap fun r =>
    (pops.find? fun p => p.State = r.State).map fun p =>
      { State := r.State, Date := r.Date, totalCases := (r.totalCases : ℚ),
        totalDeaths := (r.totalDeaths : ℚ), dailyCases := r.dailyCases,
        dailyDeaths := r.dailyDeaths, population := p.population }

/-- The counties Population Joiner as the spec describes it, keyed on the
fips code. -/
def innerJoinSpecC (rows : List CSRow) (pops : List CPop) : List CMRow :=
  rows.filterMap fun r =>
    (pops.find? fun p => p.fips = r.fips).map fun p =>
      { state := r.state, County := r.County, Date := r.Date,
        totalCases := (r.totalCases : ℚ), totalDeaths := (r.totalDeaths : ℚ),
        dailyCases := r.dailyCases, dailyDeaths := r.dailyDeaths,
        fips := r.fips, population := p.population }

/-- Row `r` is row `s` with each of the four metric columns replaced by
`(value / population) * 100` and everything else unchanged — the spec's
description of what normalization does to one row. -/
def NormalizedFrom (r s : MRow) : Prop :=
  r.State = s.State ∧ r.Date = s.Date ∧ r.population = s.population ∧
  r.totalCases = s.totalCases / s.population * 100 ∧
  r.totalDeaths = s.totalDeaths / s.population * 100 ∧
  r.dailyCases = s.dailyCases.map (fun v => v / s.population * 100) ∧
  r.dailyDeaths = s.dailyDeaths.map (fun v => v / s.population * 100)

/-- Counties version of `NormalizedFrom`. -/
def NormalizedFromC (r s : CMRow) : Prop :=
  r.County = s.County ∧ r.state = s.state ∧ r.Date = s.Date ∧
  r.fips = s.fips ∧ r.population = s.population ∧
  r.totalCases = s.totalCases / s.population * 100 ∧
  r.totalDeaths = s.totalDeaths / s.population * 100 ∧
  r.dailyCases = s.dailyCases.map (fun v => v / s.population * 100) ∧
  r.dailyDeaths = s.dailyDeaths.map (fun v => v / s.population * 100)

/-! ## Concrete tables used by the individual claims -/

/-- C1, spec example: one state, cumulative cases `[0,0,3,3,7]` over five
consecutive days. -/
def obsC1a : List Obs :=
  [⟨0, "Alpha", 1, 0, 0⟩, ⟨1, "Alpha", 1, 0, 0⟩, ⟨2, "Alpha", 1, 3, 1⟩,
   ⟨3, "Alpha", 1, 3, 1⟩, ⟨4, "Alpha", 1, 7, 2⟩]

/-- C1, failing input: two states with one day each; Alpha's cumulative
count is 5, Beta's is 3. -/
def obsC1b : List Obs :=
  [⟨0, "Alpha", 1, 5, 0⟩, ⟨0, "Beta", 2, 3, 0⟩]

/-- C1, failing input for the counties script: two counties of one state
with one day each. -/
def cobsC1 : List CObs :=
  [⟨0, "Acton", "Calif", some 11, 5, 0⟩, ⟨0, "Burbank", "Calif", some 12, 3, 0⟩]

/-- C2, failing input: Alpha has six days (cumulative cases 1..6), Beta a
single day (10); Beta's one row is the 7th row of the whole frame. -/
def obsC2a : List Obs :=
  [⟨0, "Alpha", 1, 1, 0⟩, ⟨1, "Alpha", 1, 2, 0⟩, ⟨2, "Alpha", 1, 3, 0⟩,
   ⟨3, "Alpha", 1, 4, 0⟩, ⟨4, "Alpha", 1, 5, 0⟩, ⟨5, "Alpha", 1, 6, 0⟩,
   ⟨0, "Beta", 2, 10, 0⟩]

/-- C2, positive part: a single state over seven days, daily deltas
`[0,1,2,3,4,5,6]` with trailing 7-mean `3` at the 7th day. -/
def obsC2b : List Obs :=
  [⟨0, "Alpha", 1, 3, 0⟩, ⟨1, "Alpha", 1, 4, 0⟩, ⟨2, "Alpha", 1, 6, 0⟩,
   ⟨3, "Alpha", 1, 9, 0⟩, ⟨4, "Alpha", 1, 13, 0⟩, ⟨5, "Alpha", 1, 18, 0⟩,
   ⟨6, "Alpha", 1, 24, 0⟩]

/-- C3, counterexample input: Alpha's cumulative cases were revised down
from 10 to 1, Beta's stay at 5; Beta has the highest latest value but
Alpha the highest maximum. -/
def obsC3 : List Obs :=
  [⟨0, "Alpha", 1, 10, 0⟩, ⟨1, "Alpha", 1, 1, 0⟩,
   ⟨0, "Beta", 2, 5, 0⟩, ⟨1, "Beta", 2, 5, 0⟩]

/-- C3, populations for `obsC3`. -/
def popsC3 : List Pop := [⟨"Alpha", 100⟩, ⟨"Beta", 100⟩]

/-- C3 witness: a one-row merged states table. -/
def dfC3w : List MRow := [⟨"Gamma", 0, 5, 1, none, none, 50⟩]

/-- C3 witness: a one-row merged counties table. -/
def cdfC3w : List CMRow := [⟨"Calif", "Acton", 0, 5, 1, none, none, 11, 50⟩]

/-- C6 witness: two post-rolling rows, one of which ("Zeta") has no
population match. -/
def rowsC6 : List SRow :=
  [⟨"Alpha", 0, 5, 1, none, none⟩, ⟨"Zeta", 0, 7, 2, none, none⟩]

/-- C6 witness: the population table matching only "Alpha". -/
def popsC6 : List Pop := [⟨"Alpha", 10⟩]

/-- C6 witness, counties: two post-rolling rows, fips 11 and 99, the
latter with no population match. -/
def crowsC6 : List CSRow :=
  [⟨"Calif", "Acton", 0, 5, 1, none, none, 11⟩,
   ⟨"Calif", "Burbank", 0, 7, 2, none, none, 99⟩]

/-- C6 witness, counties: the population table matching only fips 11. -/
def cpopsC6 : List CPop := [⟨11, 10⟩]

/-- C7, counterexample input: a single state with a single day, so the
7-day rolling average leaves its one daily-cases value NaN. -/
def obsC7 : List Obs := [⟨0, "Alpha", 1, 5, 0⟩]

/-- C7, populations for `obsC7`. -/
def popsC7 : List Pop := [⟨"Alpha", 100⟩]

/-- C8 input: Alpha has 100 cumulative cases and population 1000, Beta
has 150 cases and population 10000. -/
def obsC8 : List Obs :=
  [⟨0, "Alpha", 1, 100, 0⟩, ⟨0, "Beta", 2, 150, 0⟩]

/-- C8 populations. -/
def popsC8 : List Pop := [⟨"Alpha", 1000⟩, ⟨"Beta", 10000⟩]

/-! ## Helper lemmas -/

theorem geNaNLast_refl (x : Option ℚ) : geNaNLast x x = true := by
  cases x <;> simp [geNaNLast]

theorem geNaNLast_total (x y : Option ℚ) :
    geNaNLast x y = true ∨ geNaNLast y x = true := by
  cases x <;> cases y <;> simp [geNaNLast]
  exact le_total _ _

theorem geNaNLast_trans {x y z : Option ℚ} (h1 : geNaNLast x y = true)
    (h2 : geNaNLast y z = true) : geNaNLast x z = true := by
  cases x <;> cases y <;> cases z <;> simp_all [geNaNLast]
  exact h2.trans h1

theorem geNoise_isSome {x : Option ℚ} {c : ℚ} (h : geNoise x c = true) :
    x.isSome = true := by
  cases x <;> simp_all [geNoise]

theorem dedupBy_nil (key : α → String) : dedupBy key [] = [] := by
  simp [dedupBy]

theorem dedupBy_cons (key : α → String) (x : α) (xs : List α) :
    dedupBy key (x :: xs) = x :: dedupBy key (xs.filter fun y => key y ≠ key x) := by
  rw [dedupBy]

theorem dedupBy_sublist (key : α → String) :
    ∀ l : List α, List.Sublist (dedupBy key l) l
  | [] => by simp [dedupBy_nil]
  | x :: xs => by
    rw [dedupBy_cons]
    exact ((dedupBy_sublist key _).trans (List.filter_sublist _)).cons₂ x
termination_by l => l.length
decreasing_by
  exact Nat.lt_succ_of_le (xs.length_filter_le _)

theorem mem_dedupBy_of_mem (key : α → String) :
    ∀ l : List α, ∀ y ∈ l, ∃ x ∈ dedupBy key l, key x = key y
  | x :: xs, y, hy => by
    rw [dedupBy_cons]
    rcases List.mem_cons.mp hy with rfl | hy
    · exact ⟨y, List.mem_cons_self _ _, rfl⟩
    · by_cases h : key y = key x
      · exact ⟨x, List.mem_cons_self _ _, h.symm⟩
      · have hyf : y ∈ xs.filter fun z => key z ≠ key x :=
          List.mem_filter.mpr ⟨hy, by simpa using h⟩
        obtain ⟨x', hx', hk⟩ := mem_dedupBy_of_mem key _ y hyf
        exact ⟨x', List.mem_cons_of_mem _ hx', hk⟩
termination_by l => l.length
decreasing_by
  exact Nat.lt_succ_of_le (xs.length_filter_le _)

theorem nodup_keys_dedupBy (key : α → String) :
    ∀ l : List α, ((dedupBy key l).map key).Nodup
  | [] => by simp [dedupBy_nil]
  | x :: xs => by
    rw [dedupBy_cons]
    simp only [List.map_cons, List.nodup_cons]
    constructor
    · intro hmem
      obtain ⟨z, hz, hkz⟩ := List.mem_map.mp hmem
      have hzf := (dedupBy_sublist key _).subset hz
      have := List.of_mem_filter hzf
      simp only [ne_eq, decide_not, Bool.not_eq_eq_eq_not, Bool.not_true,
        decide_eq_false_iff_not] at this
      exact this hkz
    · exact nodup_keys_dedupBy key _
termination_by l => l.length
decreasing_by
  exact Nat.lt_succ_of_le (xs.length_filter_le _)

theorem dedupBy_dominates (key : α → String) (r : α → α → Prop)
    (hrefl : ∀ a, r a a) :
    ∀ l : List α, l.Pairwise r → ∀ x ∈ dedupBy key l, ∀ y ∈ l,
      key y = key x → r x y
  | [], _, x, hx, _, _, _ => by simp [dedupBy_nil] at hx
  | a :: as, hp, x, hx, y, hy, hkey => by
    rw [dedupBy_cons] at hx
    rw [List.pairwise_cons] at hp
    rcases List.mem_cons.mp hx with rfl | hx'
    · rcases List.mem_cons.mp hy with rfl | hy'
      · exact hrefl _
      · exact hp.1 y hy'
    · have hxne : key x ≠ key a := by
        have := List.of_mem_filter ((dedupBy_sublist key _).subset hx')
        simpa using this
      rcases List.mem_cons.mp hy with rfl | hy'
      · exact absurd hkey.symm hxne
      · have hyf : y ∈ as.filter fun z => key z ≠ key a :=
          List.mem_filter.mpr ⟨hy', by simpa using hkey ▸ hxne⟩
        exact dedupBy_dominates key r hrefl _
          (hp.2.sublist (List.filter_sublist _)) x hx' y hyf hkey
termination_by l => l.length
decreasing_by
  exact Nat.lt_succ_of_le (as.length_filter_le _)

theorem sortValuesDesc_perm (val : α → Option ℚ) (l : List α) :
    List.Perm (sortValuesDesc val l) l :=
  List.perm_insertionSort _ l

theorem sortValuesDesc_pairwise (val : α → Option ℚ) (l : List α) :
    (sortValuesDesc val l).Pairwise fun a b => geNaNLast (val a) (val b) = true := by
  haveI : IsTotal α fun a b => geNaNLast (val a) (val b) = true :=
    ⟨fun a b => geNaNLast_total _ _⟩
  haveI : IsTrans α fun a b => geNaNLast (val a) (val b) = true :=
    ⟨fun _ _ _ => geNaNLast_trans⟩
  exact List.sorted_insertionSort _ l

theorem topSelect_spec (val : α → Option ℚ) (key : α → String)
    (df : List α) (m : Nat) :
    TopSelectSpec val key df m
      (((dedupBy key (sortValuesDesc val df)).map key).take m) := by
  set r : α → α → Prop := fun a b => geNaNLast (val a) (val b) = true with hr
  set sorted := sortValuesDesc val df with hsorteddef
  set D := dedupBy key sorted with hD
  have hperm : List.Perm sorted df := sortValuesDesc_perm val df
  have hsorted : sorted.Pairwise r := sortValuesDesc_pairwise val df
  have hDsub : List.Sublist D sorted := dedupBy_sublist key sorted
  have hDpair : D.Pairwise r := hsorted.sublist hDsub
  have hnodup : (D.map key).Nodup := nodup_keys_dedupBy key sorted
  have hmemD : ∀ k, k ∈ D.map key ↔ k ∈ df.map key := by
    intro k
    constructor
    · intro hk
      obtain ⟨x, hx, hkx⟩ := List.mem_map.mp hk
      exact List.mem_map.mpr ⟨x, hperm.subset (hDsub.subset hx), hkx⟩
    · intro hk
      obtain ⟨y, hy, hky⟩ := List.mem_map.mp hk
      obtain ⟨x, hx, hkx⟩ :=
        mem_dedupBy_of_mem key sorted y (hperm.symm.subset hy)
      exact List.mem_map.mpr ⟨x, hx, hkx.trans hky⟩
  have hlen : (D.map key).length = ((df.map key).dedup).length := by
    refine (List.perm_ext_iff_of_nodup hnodup (List.nodup_dedup _)).mpr ?_
      |>.length_eq
    intro k
    rw [List.mem_dedup]
    exact hmemD k
  refine ⟨?_, ?_, ?_, D.take m, ?_, ?_, ?_, ?_, ?_⟩
  · exact hnodup.sublist (List.take_sublist m _)
  · rw [List.length_take, hlen]
  · intro k hk
    exact (hmemD k).mp ((List.take_sublist m _).subset hk)
  · exact (List.map_take key D m).symm
  · intro x hx
    exact hperm.subset (hDsub.subset ((List.take_sublist m _).subset hx))
  · exact hDpair.sublist (List.take_sublist m _)
  · intro x hx y hy hkey
    exact dedupBy_dominates key r (fun a => geNaNLast_refl _) sorted hsorted x
      ((List.take_sublist m _).subset hx) y (hperm.symm.subset hy) hkey
  · intro x hx y hy hres
    have hky : key y ∈ D.map key := (hmemD _).mpr (List.mem_map.mpr ⟨y, hy, rfl⟩)
    obtain ⟨x', hx', hkx'⟩ := List.mem_map.mp hky
    have hx'drop : x' ∈ D.drop m := by
      rcases (List.mem_append.mp
        ((List.take_append_drop m D).symm ▸ hx' : x' ∈ D.take m ++ D.drop m))
        with h | h
      · exact absurd (hkx' ▸ (List.map_take key D m ▸
          List.mem_map.mpr ⟨x', h, rfl⟩ : key x' ∈ (D.map key).take m)) hres
      · exact h
    have hpp : (D.take m ++ D.drop m).Pairwise r :=
      (List.take_append_drop m D).symm ▸ hDpair
    have hxx' : r x x' := (List.pairwise_append.mp hpp).2.2 x hx x' hx'drop
    have hx'y : r x' y :=
      dedupBy_dominates key r (fun a => geNaNLast_refl _) sorted hsorted x'
        hx' y (hperm.symm.subset hy) hkx'.symm
    exact geNaNLast_trans hxx' hx'y

theorem filter_eq_find_toList {K : Type} [DecidableEq K] (kf : β → K) (k : K) :
    ∀ pops : List β, ((pops.map kf).Nodup) →
      pops.filter (fun p => kf p = k) = (pops.find? fun p => kf p = k).toList := by
  intro pops
  induction pops with
  | nil => intro _; rfl
  | cons p ps ih =>
    intro h
    rw [List.map_cons, List.nodup_cons] at h
    by_cases hk : kf p = k
    · rw [List.filter_cons_of_pos (by simpa using hk),
        List.find?_cons_of_pos _ (by simpa using hk)]
      have hnil : ps.filter (fun q => kf q = k) = [] := by
        rw [List.filter_eq_nil_iff]
        intro x hx
        simp only [decide_eq_true_eq]
        intro hxk
        exact h.1 (List.mem_map.mpr ⟨x, hx, hxk.trans hk.symm⟩)
      simp [hnil]
    · rw [List.filter_cons_of_neg (by simpa using hk),
        List.find?_cons_of_neg _ (by simpa using hk)]
      exact ih h.2

theorem flatMap_merge_eq_filterMap {K : Type} [DecidableEq K] (kf : β → K)
    (g : α → K) (ext : α → β → γ) (pops : List β)
    (h : (pops.map kf).Nodup) :
    ∀ rows : List α,
      (rows.flatMap fun r => (pops.filter fun p => kf p = g r).map (ext r)) =
      rows.filterMap fun r => (pops.find? fun p => kf p = g r).map (ext r) := by
  intro rows
  induction rows with
  | nil => rfl
  | cons r rs ih =>
    rw [List.flatMap_cons, List.filterMap_cons,
      filter_eq_find_toList kf (g r) pops h]
    cases hf : pops.find? fun p => kf p = g r with
    | none => simpa using ih
    | some p => simpa using ih

theorem geNoise_iff (x : Option ℚ) (c : ℚ) :
    geNoise x c = true ↔ ∃ v, x = some v ∧ c ≤ v := by
  cases x <;> simp [geNoise]

/-! ## Claim theorems -/

/-- C1: the spec's example holds for a lone (first) region — cumulative
cases `[0,0,3,3,7]` give daily deltas `[0,0,3,0,4]` — but the Deriver does
NOT compute per-region first differences: the `diff` runs over the whole
sorted frame, so the first row of every region other than the first picks
up the difference against the previous region's last cumulative count.
With Alpha at 5 and Beta at 3 (one day each), Beta's first daily delta is
`-2` where the claim requires `0`, in both the states and the counties
script. -/
theorem claim_C1_daily_deltas_cross_regions :
    (derive_states obsC1a).map (·.dailyCases) = [0, 0, 3, 0, 4] ∧
    (derive_states obsC1b).map (fun r => (r.State, r.dailyCases)) =
      [("Alpha", 0), ("Beta", -2)] ∧
    (derive_counties cobsC1).map (fun r => (r.County, r.dailyCases)) =
      [("Acton", 0), ("Burbank", -2)] :=
  ⟨by decide, by decide, by decide⟩

/-- C2: the 7-day rolling average is also computed over the whole frame,
not per region.  For a lone region the claim's trailing-mean semantics
holds (seven days of deltas `[0,1,2,3,4,5,6]` give six NaNs then `3`),
but when Alpha occupies the first six rows and Beta the seventh, Beta's
first (and only) point gets the value `9/7` — averaged almost entirely
from Alpha's deltas — where the claim requires NaN. -/
theorem claim_C2_rolling_average_crosses_regions :
    (rollStep (derive_states obsC2b)).map (·.dailyCases) =
      [none, none, none, none, none, none, some 3] ∧
    (rollStep (derive_states obsC2a)).map (fun r => (r.State, r.dailyCases)) =
      [("Alpha", none), ("Alpha", none), ("Alpha", none), ("Alpha", none),
       ("Alpha", none), ("Alpha", none), ("Beta", some (9 / 7))] :=
  ⟨by with_unfolding_all decide, by with_unfolding_all decide⟩

/-- C3, counterexample: the Selector does not rank regions by the LATEST
value of the metric.  With Alpha's cumulative cases revised downward
(rows 10 then 1) and Beta steady at 5, Beta has the strictly higher
latest value, yet the top-1 selection returns Alpha (ranked by Alpha's
maximum row value 10). -/
theorem claim_C3_counterexample :
    states_select "1" none false obsC3 popsC3 = ["Alpha"] ∧
    geNaNLast
      (latestValue (getCol Col.totalCases) (·.State)
        (states_pipeline false obsC3 popsC3) "Alpha")
      (latestValue (getCol Col.totalCases) (·.State)
        (states_pipeline false obsC3 popsC3) "Beta") = false :=
  ⟨by with_unfolding_all decide, by with_unfolding_all decide⟩

/-- C3, amended: for a positive integer string input, the Selector
returns `min N (number of regions)` region identifiers, deduplicated,
drawn from the table, ranked in descending order of each region's MAXIMUM
(not latest) value of the chosen metric — witnessed by one representative
row per selected region that dominates all rows of its own region and all
rows of every unselected region.  Holds for both scripts. -/
theorem claim_C3_topN_by_max (s : String) (n : Int) (df : List MRow)
    (dfc : List CMRow) (col : Col) (hs : parsePyInt s = some n) (hn : 0 < n) :
    TopSelectSpec (getCol col) (·.State) df n.toNat (get_state_list s df col) ∧
    TopSelectSpec (getColC col) (·.County) dfc n.toNat (get_county_list s dfc col) := by
  have hne : n ≠ 0 := by omega
  have h1 : get_state_list s df col =
      ((dedupBy (·.State) (sortValuesDesc (getCol col) df)).map (·.State)).take n.toNat := by
    simp only [get_state_list, hs, pyTake, if_pos hne, if_pos (le_of_lt hn)]
  have h2 : get_county_list s dfc col =
      ((dedupBy (·.County) (sortValuesDesc (getColC col) dfc)).map (·.County)).take n.toNat := by
    simp only [get_county_list, hs, pyTake, if_pos hne, if_pos (le_of_lt hn)]
  rw [h1, h2]
  exact ⟨topSelect_spec _ _ df n.toNat, topSelect_spec _ _ dfc n.toNat⟩

/-- C3, witness for the amended theorem at input "1" over one-row
tables. -/
theorem claim_C3_topN_by_max_witness :
    parsePyInt "1" = some 1 ∧ (0 : Int) < 1 ∧
    TopSelectSpec (getCol Col.totalCases) (·.State) dfC3w (Int.toNat 1)
      (get_state_list "1" dfC3w Col.totalCases) ∧
    TopSelectSpec (getColC Col.totalCases) (·.County) cdfC3w (Int.toNat 1)
      (get_county_list "1" cdfC3w Col.totalCases) := by
  obtain ⟨h1, h2⟩ :=
    claim_C3_topN_by_max "1" 1 dfC3w cdfC3w Col.totalCases rfl (by decide)
  exact ⟨rfl, by decide, h1, h2⟩

/-- C4: an input string that does not parse as an integer makes both
selectors return the comma-split, whitespace-trimmed tokens of the input,
independent of the data. -/
theorem claim_C4_explicit_list (s : String) (df : List MRow) (dfc : List CMRow)
    (col : Col) (h : parsePyInt s = none) :
    get_state_list s df col = splitStrip s ∧
    get_county_list s dfc col = splitStrip s := by
  constructor
  · simp only [get_state_list, h]
  · simp only [get_county_list, h]

/-- C4, witness: "Texas, California" does not parse as an integer and
yields exactly `["Texas", "California"]` on both selectors. -/
theorem claim_C4_explicit_list_witness :
    parsePyInt "Texas, California" = none ∧
    get_state_list "Texas, California" [] Col.totalCases =
      splitStrip "Texas, California" ∧
    get_county_list "Texas, California" [] Col.totalCases =
      splitStrip "Texas, California" ∧
    splitStrip "Texas, California" = ["Texas", "California"] := by
  obtain ⟨h1, h2⟩ :=
    claim_C4_explicit_list "Texas, California" [] [] Col.totalCases rfl
  exact ⟨rfl, h1, h2, rfl⟩

/-- C5: normalization is the last pipeline step — running with `--norm`
equals running without it and then rescaling in place — and row for row
the normalized table carries each of the four metric columns divided by
the row's population and multiplied by 100, with the daily columns taken
from the 7-day rolling average of the RAW counts (the `false` pipeline).
Holds for both scripts. -/
theorem claim_C5_normalize_after_rolling (obs : List Obs) (pops : List Pop)
    (theState : String) (cobs : List CObs) (cpops : List CPop) :
    states_pipeline true obs pops = normalizeCols (states_pipeline false obs pops) ∧
    List.Forall₂ NormalizedFrom (states_pipeline true obs pops)
      (states_pipeline false obs pops) ∧
    counties_pipeline true theState cobs cpops =
      normalizeColsC (counties_pipeline false theState cobs cpops) ∧
    List.Forall₂ NormalizedFromC (counties_pipeline true theState cobs cpops)
      (counties_pipeline false theState cobs cpops) := by
  refine ⟨rfl, ?_, rfl, ?_⟩
  · show List.Forall₂ NormalizedFrom
      ((mergePop (rollStep (derive_states obs)) pops).map _)
      (mergePop (rollStep (derive_states obs)) pops)
    exact List.forall₂_map_left_iff.mpr (List.forall₂_same.mpr fun a _ =>
      ⟨rfl, rfl, rfl, rfl, rfl, rfl, rfl⟩)
  · show List.Forall₂ NormalizedFromC
      ((mergePopC _ cpops).map _) (mergePopC _ cpops)
    exact List.forall₂_map_left_iff.mpr (List.forall₂_same.mpr fun a _ =>
      ⟨rfl, rfl, rfl, rfl, rfl, rfl, rfl, rfl, rfl⟩)

/-- C6: the Population Joiner is an inner join on the region identifier —
given one population row per identifier, every derived row with a match
is kept, in order, extended with its population, and every row without a
match is dropped; states join on the `State` name, counties on the `fips`
code. -/
theorem claim_C6_inner_join (rows : List SRow) (pops : List Pop)
    (crows : List CSRow) (cpops : List CPop)
    (h : (pops.map (·.State)).Nodup) (hc : (cpops.map (·.fips)).Nodup) :
    mergePop rows pops = innerJoinSpec rows pops ∧
    mergePopC crows cpops = innerJoinSpecC crows cpops := by
  constructor
  · simp only [mergePop, innerJoinSpec]
    exact flatMap_merge_eq_filterMap (·.State) (·.State) _ pops h rows
  · simp only [mergePopC, innerJoinSpecC]
    exact flatMap_merge_eq_filterMap (·.fips) (·.fips) _ cpops hc crows

/-- C6, witness: a table with a matched row ("Alpha" / fips 11) and an
unmatched one ("Zeta" / fips 99); the join keeps exactly the matched row,
extended with its population. -/
theorem claim_C6_inner_join_witness :
    (popsC6.map (·.State)).Nodup ∧ (cpopsC6.map (·.fips)).Nodup ∧
    mergePop rowsC6 popsC6 = innerJoinSpec rowsC6 popsC6 ∧
    mergePopC crowsC6 cpopsC6 = innerJoinSpecC crowsC6 cpopsC6 ∧
    mergePop rowsC6 popsC6 = [⟨"Alpha", 0, 5, 1, none, none, 10⟩] := by
  obtain ⟨h1, h2⟩ :=
    claim_C6_inner_join rowsC6 popsC6 crowsC6 cpopsC6 (by decide) (by decide)
  exact ⟨by decide, by decide, h1, h2, by with_unfolding_all decide⟩

/-- C7, counterexample: a row whose daily-cases value is NaN is NOT
"below 2", yet the noise filter drops it — so "all other rows are kept
unchanged" fails as stated.  One region with one day leaves its single
row's smoothed daily cases NaN; the row is not below the threshold and is
dropped anyway. -/
theorem claim_C7_counterexample :
    ((states_pipeline false obsC7 popsC7).map fun r => isBelow r.dailyCases 2)
      = [false] ∧
    states_presented false obsC7 popsC7 = [] :=
  ⟨by with_unfolding_all decide, by with_unfolding_all decide⟩

/-- C7, amended: before presenting, a row is kept (unchanged and in
order) iff its daily-cases value is defined and at least the threshold
(2 unnormalized, 0 normalized); rows below the threshold AND rows with
NaN daily cases are dropped.  Holds for both scripts. -/
theorem claim_C7_noise_filter (norm : Bool) (obs : List Obs)
    (pops : List Pop) (theState : String) (cobs : List CObs)
    (cpops : List CPop) :
    List.Sublist (states_presented norm obs pops)
      (states_pipeline norm obs pops) ∧
    (∀ r, r ∈ states_presented norm obs pops ↔
      r ∈ states_pipeline norm obs pops ∧
        ∃ v, r.dailyCases = some v ∧ (if norm then (0 : ℚ) else 2) ≤ v) ∧
    List.Sublist (counties_presented norm theState cobs cpops)
      (counties_pipeline norm theState cobs cpops) ∧
    (∀ r, r ∈ counties_presented norm theState cobs cpops ↔
      r ∈ counties_pipeline norm theState cobs cpops ∧
        ∃ v, r.dailyCases = some v ∧ (if norm then (0 : ℚ) else 2) ≤ v) := by
  refine ⟨?_, ?_, ?_, ?_⟩
  · cases norm <;> exact List.filter_sublist _
  · intro r
    cases norm <;>
      simp [states_presented, noiseFilter, List.mem_filter, geNoise_iff]
  · cases norm <;> exact List.filter_sublist _
  · intro r
    cases norm <;>
      simp [counties_presented, noiseFilterC, List.mem_filter, geNoise_iff]

/-- C8: normalization changes the top-N ranking by total cases when
populations differ.  Alpha (100 cases, population 1000) against Beta
(150 cases, population 10000): the raw selector ranks Beta above Alpha,
the normalized one ranks Alpha (10%) above Beta (1.5%). -/
theorem claim_C8_normalization_changes_topN :
    states_select "2" none false obsC8 popsC8 = ["Beta", "Alpha"] ∧
    states_select "2" none true obsC8 popsC8 = ["Alpha", "Beta"] :=
  ⟨by with_unfolding_all decide, by with_unfolding_all decide⟩

/-- C9: the input string "0" parses as the integer 0, which is falsy in
Python, so both selectors fall through to the explicit-list branch and
return `["0"]` whatever the data. -/
theorem claim_C9_zero_falls_through (df : List MRow) (dfc : List CMRow)
    (col : Col) :
    get_state_list "0" df col = ["0"] ∧ get_county_list "0" dfc col = ["0"] :=
  ⟨rfl, rfl⟩

/-- C10: every row that survives the noise filter has a defined (non-NaN)
daily-cases value, in both normalized and unnormalized modes and in both
scripts, because a NaN satisfies neither `>= 2` nor `>= 0`. -/
theorem claim_C10_presented_daily_defined (norm : Bool) (obs : List Obs)
    (pops : List Pop) (theState : String) (cobs : List CObs)
    (cpops : List CPop) :
    (states_presented norm obs pops).all (fun r => r.dailyCases.isSome) = true ∧
    (counties_presented norm theState cobs cpops).all
      (fun r => r.dailyCases.isSome) = true := by
  constructor
  · rw [List.all_eq_true]
    intro r hr
    cases norm
    · have hr2 : r ∈ List.filter (fun t => geNoise t.dailyCases 2)
        (states_pipeline false obs pops) := hr
      have h3 := List.of_mem_filter hr2
      exact geNoise_isSome h3
    · have hr2 : r ∈ List.filter (fun t => geNoise t.dailyCases 0)
        (states_pipeline true obs pops) := hr
      have h3 := List.of_mem_filter hr2
      exact geNoise_isSome h3
  · rw [List.all_eq_true]
    intro r hr
    cases norm
    · have hr2 : r ∈ List.filter (fun t => geNoise t.dailyCases 2)
        (counties_pipeline false theState cobs cpops) := hr
      have h3 := List.of_mem_filter hr2
      exact geNoise_isSome h3
    · have hr2 : r ∈ List.filter (fun t => geNoise t.dailyCases 0)
        (counties_pipeline true theState cobs cpops) := hr
      have h3 := List.of_mem_filter hr2
      exact geNoise_isSome h3
